import Mathlib

/-!
Shallow embedding of the storage-and-mutation core of the todo CLI
(src/model.rs, src/storage.rs, src/lib.rs).

Modelling conventions:
* `Uuid` identifiers are modelled as `Nat`; `Uuid::new_v4()` is random, so
  operations that generate an identifier take it as an explicit parameter.
* `OffsetDateTime` timestamps are modelled as `Nat`; `TimeStamp::now_utc()`
  is passed in as an explicit `now` parameter.
* The backing file is modelled as `Option TodoFile` (`none` = the file does
  not exist); each operation maps the store to a result plus the new store,
  mirroring the read-modify-write protocol (open_or_init, load_from,
  atomic_write).  Advisory locking, fsync and OS-level I/O failures are not
  modelled: every claim under verification is about the in-memory mutation
  and which content is (or is not) persisted.
* A Rust `assert!` is fallible code and is embedded as `Except.error
  (Err.assertFailure msg)` carrying the assertion message.
* The source declares `Task.priority` as `u8`, but every function that
  touches it (`set_priority`, the filter and display in `list_tasks`)
  treats it as `Option<u8>`, and both copies of `build()` omit the field
  altogether (which does not compile as written).  The embedding follows
  the behavioural code: the field is `Option Nat` and `build` initialises
  it from the builder's (plain `Nat`, default 0) priority.
-/

namespace Todo

/-- `Status` from model.rs: the workflow state machine. -/
inductive Status where
  | Done
  | Pending
  | Canceled
  | InProgress
deriving DecidableEq, Repr

/-- `Task` from model.rs. -/
structure Task where
  id : Nat
  title : String
  desc : Option String
  status : Status
  priority : Option Nat
  tags : List String
  created_at : Nat
  updated_at : Option Nat
  completed_at : Option Nat
deriving DecidableEq, Repr

/-- ASCII lower-casing of one character, as in Rust's `to_ascii_lowercase`. -/
def asciiLowerChar (c : Char) : Char :=
  if 'A' ≤ c ∧ c ≤ 'Z' then Char.ofNat (c.toNat + 32) else c

/-- ASCII lower-casing of a string, as in Rust's `str::to_ascii_lowercase`. -/
def asciiLower (s : String) : String :=
  String.mk (s.data.map asciiLowerChar)

/-- Rust's `str::eq_ignore_ascii_case`. -/
def eqIgnoreAsciiCase (a b : String) : Bool :=
  asciiLower a == asciiLower b

/-- Errors surfaced by the operations (the source uses `anyhow` messages via
`bail!`; an `assert!` failure aborts the operation). -/
inductive Err where
  | notFound (id : Nat)
  | assertFailure (msg : String)
deriving DecidableEq, Repr

/-- `Task::mark_done` from model.rs lines 78-85: no-op when already Done,
otherwise transition to Done stamping `completed_at` and `updated_at`. -/
def Task.mark_done (now : Nat) (t : Task) : Task :=
  if t.status ≠ Status.Done then
    { t with status := Status.Done
             completed_at := some now
             updated_at := some now }
  else t

/-- `Task::set_priority` from model.rs lines 88-96.  The `assert!` on the
0-5 range becomes an `Except.error`. -/
def Task.set_priority (now : Nat) (t : Task) (p : Option Nat) : Except Err Task :=
  if t.priority ≠ p then
    match p with
    | some val =>
        if val ≤ 5 then
          Except.ok { t with priority := p, updated_at := some now }
        else
          Except.error (Err.assertFailure "priority must be 0-5")
    | none => Except.ok { t with priority := p, updated_at := some now }
  else Except.ok t

/-- `Task::add_tag` from model.rs lines 99-105: case-insensitive dedup,
append preserving insertion order, stamp `updated_at` only when appended.
(The source line `self.updated_at(Some(TimeStamp::now_utc))` is the obvious
slip for `self.updated_at = Some(TimeStamp::now_utc())`.) -/
def Task.add_tag (now : Nat) (t : Task) (tag : String) : Task :=
  if t.tags.any (fun s => eqIgnoreAsciiCase s tag) then t
  else { t with tags := t.tags ++ [tag], updated_at := some now }

/-- `TaskBuilder` from model.rs.  The Rust type-state marker
(`MissingTitle`/`HasTitle`) is a compile-time device; here the builder is a
plain record and `build` fails when the title was never supplied, which
mirrors the `self.title.unwrap()` in the source. -/
structure TaskBuilder where
  title : Option String
  desc : Option String
  priority : Nat
  tags : List String
deriving DecidableEq, Repr

/-- `Task::builder()`: the initial builder (no title, priority 0, no tags). -/
def Task.builderInit : TaskBuilder :=
  { title := none, desc := none, priority := 0, tags := [] }

/-- `TaskBuilder::title` (stage-1 method): record the title. -/
def TaskBuilder.setTitle (b : TaskBuilder) (t : String) : TaskBuilder :=
  { b with title := some t }

/-- `TaskBuilder::desc`: record the description. -/
def TaskBuilder.setDesc (b : TaskBuilder) (d : String) : TaskBuilder :=
  { b with desc := some d }

/-- `TaskBuilder::priority`: `assert!((0..=5).contains(&p))` then record. -/
def TaskBuilder.setPriority (b : TaskBuilder) (p : Nat) : Except Err TaskBuilder :=
  if p ≤ 5 then Except.ok { b with priority := p }
  else Except.error (Err.assertFailure "Priority must be 0-5.")

/-- `TaskBuilder::tag`: append one tag (no dedup at build time). -/
def TaskBuilder.addTag (b : TaskBuilder) (t : String) : TaskBuilder :=
  { b with tags := b.tags ++ [t] }

/-- `TaskBuilder::build` from model.rs lines 147-159: fresh id, status
Pending, `created_at = now`, `updated_at = completed_at = None`.  The id and
`now` are parameters (random uuid / wall clock).  The source's struct
literal omits `priority`; the builder's tracked priority is the evident
intent and is used here. -/
def TaskBuilder.build (b : TaskBuilder) (id now : Nat) : Option Task :=
  match b.title with
  | some title =>
      some { id := id
             title := title
             desc := b.desc
             status := Status.Pending
             priority := some b.priority
             tags := b.tags
             created_at := now
             updated_at := none
             completed_at := none }
  | none => none

/-- `Meta` from model.rs / storage.rs. -/
structure Meta where
  version : Nat
  current_id : Nat
  generated_at : Nat
deriving DecidableEq, Repr

/-- `TodoFile` from model.rs / storage.rs: metadata plus the ordered task
collection. -/
structure TodoFile where
  meta : Meta
  tasks : List Task
deriving DecidableEq, Repr

/-- `TodoFile::new`: version 1, current_id 1, empty collection. -/
def TodoFile.new (now : Nat) : TodoFile :=
  { meta := { version := 1, current_id := 1, generated_at := now }
    tasks := [] }

/-- The backing file: `none` when the path does not exist. -/
def Store := Option TodoFile

/-- `open_or_init` from storage.rs composed with `load_from`: returns the
deserialized `TodoFile` plus the store state after the call (a missing file
is seeded with `TodoFile::new`). -/
def open_or_init (now : Nat) (store : Option TodoFile) : TodoFile × Option TodoFile :=
  match store with
  | some f => (f, some f)
  | none => (TodoFile.new now, some (TodoFile.new now))

/-- `add_task` from lib.rs lines 143-157: open-or-init, load, push the task,
atomic_write.  (No duplicate-id check and no version bump appear in the
source.) -/
def add_task (now : Nat) (store : Option TodoFile) (task : Task) :
    Except Err Unit × Option TodoFile :=
  let (data, _) := open_or_init now store
  let data := { data with tasks := data.tasks ++ [task] }
  (Except.ok (), some data)

/-- Helper embedding `data.tasks.iter_mut().find(|t| t.id == id)` followed by
the in-place mark-done of lib.rs lines 166-176: mutate the FIRST task whose
id matches, `none` when no task matches. -/
def completeFirst (now : Nat) (id : Nat) : List Task → Option (List Task)
  | [] => none
  | t :: ts =>
      if t.id = id then some (Task.mark_done now t :: ts)
      else (completeFirst now id ts).map (fun ts2 => t :: ts2)

/-- `complete_task` from lib.rs lines 160-181: find the first task with the
identifier; absent ⇒ `bail!` before any write; present ⇒ mark done (the
inlined body is exactly `Task::mark_done`), then atomic_write. -/
def complete_task (now : Nat) (store : Option TodoFile) (id : Nat) :
    Except Err Unit × Option TodoFile :=
  let (data, store1) := open_or_init now store
  match completeFirst now id data.tasks with
  | some ts => (Except.ok (), some { data with tasks := ts })
  | none => (Except.error (Err.notFound id), store1)

/-- `remove_task` from lib.rs lines 184-199: `retain(|t| t.id != id)`; if the
length did not change, `bail!` before any write; else atomic_write. -/
def remove_task (now : Nat) (store : Option TodoFile) (id : Nat) :
    Except Err Unit × Option TodoFile :=
  let (data, store1) := open_or_init now store
  let before := data.tasks.length
  let kept := data.tasks.filter (fun t => t.id ≠ id)
  if before = kept.length then
    (Except.error (Err.notFound id), store1)
  else
    (Except.ok (), some { data with tasks := kept })

/-- The priority filter of `list_tasks` (lib.rs lines 215-218):
`Some(p) => t.priority == Some(p), None => true`. -/
def priorityMatches (priority_filter : Option Nat) (t : Task) : Bool :=
  match priority_filter with
  | some p => t.priority == some p
  | none => true

/-- The tag filter of `list_tasks` (lib.rs lines 219-228): with an empty
needle keep everything, else the lower-cased needle must be a subset of the
task's lower-cased tag set. -/
def tagMatches (needle : List String) (t : Task) : Bool :=
  if needle.isEmpty then true
  else needle.all (fun s => (t.tags.map asciiLower).contains s)

/-- `list_tasks` from lib.rs lines 203-240: read-only; pre-lowercases the tag
filter, loads, applies the priority filter then the tag filter, and emits the
survivors in collection order (the printing is presentation only; the value
returned here is the sequence of tasks printed). -/
def list_tasks (now : Nat) (store : Option TodoFile) (priority_filter : Option Nat)
    (tag_filter : List String) : List Task × Option TodoFile :=
  let needle := tag_filter.map asciiLower
  let (data, store1) := open_or_init now store
  ((data.tasks.filter (priorityMatches priority_filter)).filter (tagMatches needle),
   store1)

/-- The task-creation pipeline as composed by the callers of the model:
`Task::builder().title(title).priority(p).build()` (builder stages from
model.rs lines 109-160). -/
def createTask (title : String) (p : Nat) (id now : Nat) : Except Err Task :=
  match (Task.builderInit.setTitle title).setPriority p with
  | Except.ok b =>
      match b.build id now with
      | some t => Except.ok t
      | none => Except.error (Err.assertFailure "called unwrap on a None value")
  | Except.error e => Except.error e

/-- Task count stored at a path (`0` when the file does not exist). -/
def storeCount (store : Option TodoFile) : Nat :=
  match store with
  | some f => f.tasks.length
  | none => 0

/-- The metadata stored at a path. -/
def storeMeta (store : Option TodoFile) : Option Meta :=
  match store with
  | some f => some f.meta
  | none => none

instance {ε α : Type} [DecidableEq ε] [DecidableEq α] : DecidableEq (Except ε α) :=
  fun a b =>
    match a, b with
    | Except.ok x, Except.ok y =>
        if h : x = y then isTrue (by rw [h]) else isFalse (by intro hc; cases hc; exact h rfl)
    | Except.error x, Except.error y =>
        if h : x = y then isTrue (by rw [h]) else isFalse (by intro hc; cases hc; exact h rfl)
    | Except.ok _, Except.error _ => isFalse (by intro hc; cases hc)
    | Except.error _, Except.ok _ => isFalse (by intro hc; cases hc)

/-! ### Concrete fixtures used by counterexamples and witnesses -/

/-- A pending task with identifier 7. -/
def tPend : Task :=
  { id := 7, title := "buy milk", desc := none, status := Status.Pending
    priority := some 2, tags := ["Work"], created_at := 0
    updated_at := none, completed_at := none }

/-- A second, distinct task that reuses identifier 7. -/
def tDup : Task :=
  { id := 7, title := "other", desc := none, status := Status.Pending
    priority := some 1, tags := [], created_at := 1
    updated_at := none, completed_at := none }

/-- A task with identifier 8. -/
def tOther : Task :=
  { id := 8, title := "walk dog", desc := some "around the block"
    status := Status.InProgress, priority := some 5, tags := ["home"]
    created_at := 2, updated_at := none, completed_at := none }

/-- A store holding two tasks with identifier 7 around one with identifier 8. -/
def fMix : TodoFile :=
  { meta := { version := 3, current_id := 1, generated_at := 0 }
    tasks := [tPend, tOther, tDup] }

/-- A store holding exactly `tPend`, at version 1. -/
def f0 : TodoFile :=
  { meta := { version := 1, current_id := 1, generated_at := 0 }
    tasks := [tPend] }

/-! ### Claim theorems -/

/-- C1 counterexample: the loaded collection of `f0` already contains a task
with identifier 7, yet adding `tDup` (identifier 7) succeeds and the stored
task count grows from 1 to 2 — `add_task` performs no duplicate check, so the
claimed `DuplicateError` failure never happens. -/
theorem add_duplicate_succeeds :
    tDup.id ∈ f0.tasks.map Task.id ∧
    (add_task 5 (some f0) tDup).1 = Except.ok () ∧
    storeCount (add_task 5 (some f0) tDup).2 = storeCount (some f0) + 1 := by
  decide

/-- C1 (amended): `add_task` never fails: every add appends the task
unconditionally — even when a task with the same identifier is already
present — and the stored task count becomes the loaded count plus one. -/
theorem add_always_appends (now : Nat) (store : Option TodoFile) (task : Task) :
    (add_task now store task).1 = Except.ok () ∧
    storeCount (add_task now store task).2 =
      (open_or_init now store).1.tasks.length + 1 := by
  cases store <;> simp [add_task, open_or_init, storeCount]

/-- C2 counterexample: a successful add against a version-1 store persists
version 1 again, not version 2 — no mutating operation increments
`meta.version` (the source has no `bump_version` at all). -/
theorem add_does_not_bump_version :
    f0.meta.version = 1 ∧
    (add_task 5 (some f0) tDup).1 = Except.ok () ∧
    Option.map Meta.version (storeMeta (add_task 5 (some f0) tDup).2) = some 1 ∧
    ¬ Option.map Meta.version (storeMeta (add_task 5 (some f0) tDup).2) =
        some (f0.meta.version + 1) := by
  decide

/-- C2 (amended): no mutating operation touches `meta`: add, complete and
remove all persist (or on failure leave behind) exactly the metadata that was
loaded, so `meta.version` is constant across successful mutations rather than
incremented. -/
theorem mutations_preserve_meta (now : Nat) (store : Option TodoFile)
    (task : Task) (i j : Nat) :
    storeMeta (add_task now store task).2 = some (open_or_init now store).1.meta ∧
    storeMeta (complete_task now store i).2 = some (open_or_init now store).1.meta ∧
    storeMeta (remove_task now store j).2 = some (open_or_init now store).1.meta := by
  refine ⟨?_, ?_, ?_⟩ <;> cases store <;>
    simp only [add_task, complete_task, remove_task, open_or_init, storeMeta]
  case refine_2.none =>
    cases h : completeFirst now i (TodoFile.new now).tasks <;> simp [h]
  case refine_2.some f =>
    cases h : completeFirst now i f.tasks <;> simp [h]
  case refine_3.none => rfl
  case refine_3.some f =>
    by_cases h : f.tasks.length = (List.filter (fun t => !decide (t.id = j)) f.tasks).length <;>
      simp [h]

/-- `completeFirst` finds nothing exactly when no task carries the id. -/
theorem completeFirst_eq_none_iff (now id : Nat) (ts : List Task) :
    completeFirst now id ts = none ↔ ∀ t ∈ ts, t.id ≠ id := by
  induction ts with
  | nil => simp [completeFirst]
  | cons t ts ih =>
      by_cases h : t.id = id <;>
        simp [completeFirst, h, Option.map_eq_none', ih]

/-- C3: when the identifier is absent from the loaded collection, both
`complete_task` and `remove_task` return the not-found error and the store is
exactly what was loaded — the read-modify-write is abandoned before any
write. -/
theorem notfound_leaves_store_unchanged (now : Nat) (f : TodoFile) (id : Nat)
    (h : ∀ t ∈ f.tasks, t.id ≠ id) :
    complete_task now (some f) id = (Except.error (Err.notFound id), some f) ∧
    remove_task now (some f) id = (Except.error (Err.notFound id), some f) := by
  constructor
  · simp [complete_task, open_or_init, (completeFirst_eq_none_iff now id f.tasks).mpr h]
  · have hfilter : f.tasks.filter (fun t => !decide (t.id = id)) = f.tasks :=
      List.filter_eq_self.mpr (by intro a ha; simpa using h a ha)
    simp [remove_task, open_or_init, hfilter]

/-- C3 witness: identifier 99 is absent from `f0`; both operations fail and
leave the store alone. -/
theorem notfound_leaves_store_unchanged_witness :
    complete_task 3 (some f0) 99 = (Except.error (Err.notFound 99), some f0) ∧
    remove_task 3 (some f0) 99 = (Except.error (Err.notFound 99), some f0) :=
  notfound_leaves_store_unchanged 3 f0 99 (by decide)

/-- C8: `remove_task` fails with the not-found error when no task carries the
identifier (store untouched); otherwise it succeeds and persists a collection
that is a sublist of the original (relative order preserved), contains no
task with the identifier, and keeps every task whose identifier differs. -/
theorem remove_semantics (now : Nat) (f : TodoFile) (id : Nat) :
    ((∀ t ∈ f.tasks, t.id ≠ id) →
        remove_task now (some f) id = (Except.error (Err.notFound id), some f)) ∧
    ((∃ t ∈ f.tasks, t.id = id) →
        (remove_task now (some f) id).1 = Except.ok () ∧
        ∃ f2, (remove_task now (some f) id).2 = some f2 ∧
          f2.meta = f.meta ∧
          List.Sublist f2.tasks f.tasks ∧
          (∀ t ∈ f2.tasks, t.id ≠ id) ∧
          (∀ t ∈ f.tasks, t.id ≠ id → t ∈ f2.tasks)) := by
  constructor
  · intro h
    have hfilter : f.tasks.filter (fun t => !decide (t.id = id)) = f.tasks :=
      List.filter_eq_self.mpr (by intro a ha; simpa using h a ha)
    simp [remove_task, open_or_init, hfilter]
  · intro h
    have hlt : (f.tasks.filter (fun t => !decide (t.id = id))).length < f.tasks.length := by
      refine List.length_filter_lt_length_iff_exists.mpr ?_
      obtain ⟨t, ht, hid⟩ := h
      exact ⟨t, ht, by simp [hid]⟩
    have hne : ¬ f.tasks.length = (f.tasks.filter (fun t => !decide (t.id = id))).length :=
      fun hc => absurd hc.symm (Nat.ne_of_lt hlt)
    refine ⟨?_, { meta := f.meta, tasks := f.tasks.filter (fun t => !decide (t.id = id)) },
      ?_, rfl, List.filter_sublist f.tasks, ?_, ?_⟩
    · simp [remove_task, open_or_init, hne]
    · simp [remove_task, open_or_init, hne]
    · intro t ht
      simpa using (List.mem_filter.mp ht).2
    · intro t ht hid
      exact List.mem_filter.mpr ⟨ht, by simp [hid]⟩

/-- C8 witness: removing identifier 7 from `f0` succeeds and leaves an empty,
order-preserving remainder. -/
theorem remove_semantics_witness :
    (remove_task 4 (some f0) 7).1 = Except.ok () ∧
    ∃ f2, (remove_task 4 (some f0) 7).2 = some f2 ∧
      f2.meta = f0.meta ∧
      List.Sublist f2.tasks f0.tasks ∧
      (∀ t ∈ f2.tasks, t.id ≠ 7) ∧
      (∀ t ∈ f0.tasks, t.id ≠ 7 → t ∈ f2.tasks) :=
  (remove_semantics 4 f0 7).2 ⟨tPend, by decide, by decide⟩

/-- C10: after a successful remove of identifier `id`, no task with that
identifier remains — `retain` drops every match, not only the first. -/
theorem remove_removes_all (now : Nat) (f : TodoFile) (id : Nat)
    (h : (remove_task now (some f) id).1 = Except.ok ()) :
    ∀ f2, (remove_task now (some f) id).2 = some f2 → ∀ t ∈ f2.tasks, t.id ≠ id := by
  intro f2 h2 t ht
  by_cases hc : f.tasks.length = (List.filter (fun t => !decide (t.id = id)) f.tasks).length
  · simp [remove_task, open_or_init, hc] at h
  · simp [remove_task, open_or_init, hc] at h2
    rw [← h2] at ht
    simpa using (List.mem_filter.mp ht).2

/-- C10 witness: `fMix` holds two distinct tasks with identifier 7 around a
task with identifier 8; one remove call leaves only the latter. -/
theorem remove_removes_all_witness :
    (remove_task 5 (some fMix) 7).1 = Except.ok () ∧ tOther.id ≠ 7 :=
  ⟨by decide,
   remove_removes_all 5 fMix 7 (by decide)
     { meta := fMix.meta, tasks := [tOther] } (by decide) tOther (by decide)⟩

/-- C4 counterexample: building a task with an EMPTY title succeeds — the
typed-state builder only guarantees a title was *supplied*, never that it is
non-empty, so the claimed `ValidationError` on an empty title does not
exist. -/
theorem create_empty_title_succeeds :
    createTask "" 0 1 5 = Except.ok
      { id := 1, title := "", desc := none, status := Status.Pending
        priority := some 0, tags := [], created_at := 5
        updated_at := none, completed_at := none } := by
  decide

/-- C4 (amended): creation enforces only the priority bound: any priority
`≤ 5` (in particular 0 and 5) yields a task — with any title, the empty one
included — and any priority `> 5` fails via the builder's assertion; the
title is never validated. -/
theorem create_priority_bounds (title : String) (p id now : Nat) :
    (p ≤ 5 → createTask title p id now = Except.ok
        { id := id, title := title, desc := none, status := Status.Pending
          priority := some p, tags := [], created_at := now
          updated_at := none, completed_at := none }) ∧
    (5 < p → createTask title p id now =
        Except.error (Err.assertFailure "Priority must be 0-5.")) := by
  constructor
  · intro h
    simp [createTask, Task.builderInit, TaskBuilder.setTitle, TaskBuilder.setPriority,
          TaskBuilder.build, h]
  · intro h
    have h2 : ¬ p ≤ 5 := by omega
    simp [createTask, Task.builderInit, TaskBuilder.setTitle, TaskBuilder.setPriority, h2]

/-- C4 witness: priorities 0 and 5 succeed (even for the empty title) and
priority 6 fails the assertion. -/
theorem create_priority_bounds_witness :
    createTask "" 0 1 2 = Except.ok
      { id := 1, title := "", desc := none, status := Status.Pending
        priority := some 0, tags := [], created_at := 2
        updated_at := none, completed_at := none } ∧
    createTask "x" 5 1 2 = Except.ok
      { id := 1, title := "x", desc := none, status := Status.Pending
        priority := some 5, tags := [], created_at := 2
        updated_at := none, completed_at := none } ∧
    createTask "x" 6 1 2 = Except.error (Err.assertFailure "Priority must be 0-5.") :=
  ⟨(create_priority_bounds "" 0 1 2).1 (by decide),
   (create_priority_bounds "x" 5 1 2).1 (by decide),
   (create_priority_bounds "x" 6 1 2).2 (by decide)⟩

/-- `mark_done` is the identity on a task already Done. -/
theorem mark_done_of_done {t : Task} (now : Nat) (h : t.status = Status.Done) :
    Task.mark_done now t = t := by
  simp [Task.mark_done, h]

/-- `mark_done` always leaves the task Done. -/
theorem mark_done_status (now : Nat) (t : Task) :
    (Task.mark_done now t).status = Status.Done := by
  by_cases h : t.status = Status.Done <;> simp [Task.mark_done, h]

/-- `mark_done` never changes the identifier. -/
theorem mark_done_id (now : Nat) (t : Task) :
    (Task.mark_done now t).id = t.id := by
  by_cases h : t.status = Status.Done <;> simp [Task.mark_done, h]

/-- Re-running `completeFirst` on its own output changes nothing: the first
matching task is already Done. -/
theorem completeFirst_idem (now1 now2 id : Nat) (ts ts2 : List Task)
    (h : completeFirst now1 id ts = some ts2) :
    completeFirst now2 id ts2 = some ts2 := by
  induction ts generalizing ts2 with
  | nil => simp [completeFirst] at h
  | cons t ts ih =>
      by_cases hid : t.id = id
      · simp only [completeFirst, if_pos hid, Option.some.injEq] at h
        subst h
        simp [completeFirst, mark_done_id, hid,
              mark_done_of_done now2 (mark_done_status now1 t)]
      · simp only [completeFirst, if_neg hid, Option.map_eq_some'] at h
        obtain ⟨ts3, h3, rfl⟩ := h
        simp [completeFirst, hid, ih ts3 h3]

/-- C5: completion is idempotent.  A task already Done is untouched by
`mark_done` (status, `completed_at` and `updated_at` keep the values stamped
by the first call), and a second `complete_task` on the same identifier
succeeds while persisting exactly the same file as the first. -/
theorem complete_idempotent (now1 now2 : Nat) (t : Task) (f f2 : TodoFile) (id : Nat)
    (ht : t.status = Status.Done)
    (h : complete_task now1 (some f) id = (Except.ok (), some f2)) :
    Task.mark_done now2 t = t ∧
    complete_task now2 (some f2) id = (Except.ok (), some f2) := by
  refine ⟨mark_done_of_done now2 ht, ?_⟩
  simp only [complete_task, open_or_init] at h ⊢
  cases hcf : completeFirst now1 id f.tasks with
  | none => rw [hcf] at h; simp at h
  | some ts =>
      rw [hcf] at h
      simp only [Prod.mk.injEq, Option.some.injEq] at h
      obtain ⟨-, h2⟩ := h
      subst h2
      simp [completeFirst_idem now1 now2 id f.tasks ts hcf]

/-- `tPend` after being completed at time 10. -/
def tDone10 : Task :=
  { id := 7, title := "buy milk", desc := none, status := Status.Done
    priority := some 2, tags := ["Work"], created_at := 0
    updated_at := some 10, completed_at := some 10 }

/-- `f0` after `complete_task` at time 10. -/
def f0c : TodoFile :=
  { meta := { version := 1, current_id := 1, generated_at := 0 }
    tasks := [tDone10] }

/-- C5 witness: completing identifier 7 of `f0` at time 10 yields `f0c`;
completing it again at time 11 changes nothing — same status Done, same
`completed_at = 10`. -/
theorem complete_idempotent_witness :
    Task.mark_done 11 tDone10 = tDone10 ∧
    complete_task 11 (some f0c) 7 = (Except.ok (), some f0c) :=
  complete_idempotent 10 11 tDone10 f0 f0c 7 (by decide) (by decide)

/-- `add_tag` is a no-op when some stored tag equals the new one ignoring
ASCII case. -/
theorem add_tag_noop_of_mem (now : Nat) (t : Task) (tag : String)
    (h : ∃ u ∈ t.tags, eqIgnoreAsciiCase u tag = true) :
    Task.add_tag now t tag = t := by
  have hc : t.tags.any (fun s => eqIgnoreAsciiCase s tag) = true :=
    List.any_eq_true.mpr h
  simp [Task.add_tag, hc]

/-- `add_tag` appends and stamps `updated_at` when no stored tag matches
ignoring ASCII case. -/
theorem add_tag_appends_of_not_mem (now : Nat) (t : Task) (tag : String)
    (h : ∀ u ∈ t.tags, eqIgnoreAsciiCase u tag = false) :
    Task.add_tag now t tag =
      { t with tags := t.tags ++ [tag], updated_at := some now } := by
  have hc : t.tags.any (fun s => eqIgnoreAsciiCase s tag) = false :=
    List.any_eq_false.mpr (by intro u hu; simp [h u hu])
  simp [Task.add_tag, hc]

/-- C7: tag insertion semantics.  If a case-insensitive duplicate is already
stored, `add_tag` changes nothing (tags and `updated_at` keep their values);
otherwise it appends the tag at the end and stamps `updated_at = now`; and
after any `add_tag t`, adding any case-variant of `t` is a no-op, so exactly
one copy is ever stored, with the casing of the first insertion. -/
theorem add_tag_semantics (now now2 : Nat) (t : Task) (tag tag2 : String) :
    ((∃ u ∈ t.tags, eqIgnoreAsciiCase u tag = true) → Task.add_tag now t tag = t) ∧
    ((∀ u ∈ t.tags, eqIgnoreAsciiCase u tag = false) →
        Task.add_tag now t tag =
          { t with tags := t.tags ++ [tag], updated_at := some now }) ∧
    (eqIgnoreAsciiCase tag2 tag = true →
        Task.add_tag now2 (Task.add_tag now t tag) tag2 = Task.add_tag now t tag) := by
  refine ⟨add_tag_noop_of_mem now t tag, add_tag_appends_of_not_mem now t tag, ?_⟩
  intro h12
  have hsym : asciiLower tag2 = asciiLower tag := by
    simpa [eqIgnoreAsciiCase] using h12
  apply add_tag_noop_of_mem
  by_cases hmem : ∃ u ∈ t.tags, eqIgnoreAsciiCase u tag = true
  · rw [add_tag_noop_of_mem now t tag hmem]
    obtain ⟨u, hu, hcase⟩ := hmem
    refine ⟨u, hu, ?_⟩
    have : asciiLower u = asciiLower tag := by
      simpa [eqIgnoreAsciiCase] using hcase
    simp [eqIgnoreAsciiCase, this, hsym]
  · push_neg at hmem
    have hall : ∀ u ∈ t.tags, eqIgnoreAsciiCase u tag = false := by
      intro u hu
      have := hmem u hu
      simpa using this
    rw [add_tag_appends_of_not_mem now t tag hall]
    refine ⟨tag, by simp, ?_⟩
    simp [eqIgnoreAsciiCase, hsym]

/-- C7 witness: `tPend` stores tag "Work"; adding "work" is a no-op, adding
"urgent" appends it and stamps `updated_at`, and after adding "urgent" a
later "URGENT" changes nothing. -/
theorem add_tag_semantics_witness :
    Task.add_tag 9 tPend "work" = tPend ∧
    Task.add_tag 9 tPend "urgent" =
      { tPend with tags := tPend.tags ++ ["urgent"], updated_at := some 9 } ∧
    Task.add_tag 12 (Task.add_tag 9 tPend "urgent") "URGENT" =
      Task.add_tag 9 tPend "urgent" :=
  ⟨(add_tag_semantics 9 12 tPend "work" "x").1 (by decide),
   (add_tag_semantics 9 12 tPend "urgent" "x").2.1 (by decide),
   (add_tag_semantics 9 12 tPend "urgent" "URGENT").2.2 (by decide)⟩

/-- The priority filter accepts a task exactly when the filter is absent or
names the task's exact priority. -/
theorem priorityMatches_iff (pf : Option Nat) (t : Task) :
    priorityMatches pf t = true ↔ ∀ p, pf = some p → t.priority = some p := by
  cases pf with
  | none => simp [priorityMatches]
  | some p =>
      simp only [priorityMatches, beq_iff_eq, Option.some.injEq]
      constructor
      · intro h q hq; rw [← hq]; exact h
      · intro h; exact h p rfl

/-- The tag filter accepts a task exactly when every requested tag has a
case-insensitive match among the task's tags. -/
theorem tagMatches_iff (tf : List String) (t : Task) :
    tagMatches (tf.map asciiLower) t = true ↔
      ∀ s ∈ tf, ∃ u ∈ t.tags, eqIgnoreAsciiCase u s = true := by
  by_cases he : tf = []
  · subst he; simp [tagMatches]
  · have hne : (tf.map asciiLower).isEmpty = false := by
      cases tf with
      | nil => exact absurd rfl he
      | cons a l => rfl
    simp [tagMatches, hne, List.all_eq_true, List.mem_map, eqIgnoreAsciiCase]

/-- C6: a task appears in the listing iff it is stored and passes both
filters — exact priority match when a priority filter is present, and a
case-insensitive tag superset when the tag filter is non-empty; with no
filters every stored task is returned; and the output is a sublist of the
collection, so results appear in collection order. -/
theorem list_filter_semantics (now : Nat) (f : TodoFile) (pf : Option Nat)
    (tf : List String) :
    (∀ t : Task, t ∈ (list_tasks now (some f) pf tf).1 ↔
        (t ∈ f.tasks ∧
         (∀ p, pf = some p → t.priority = some p) ∧
         (∀ s ∈ tf, ∃ u ∈ t.tags, eqIgnoreAsciiCase u s = true))) ∧
    (pf = none → tf = [] → (list_tasks now (some f) pf tf).1 = f.tasks) ∧
    List.Sublist (list_tasks now (some f) pf tf).1 f.tasks := by
  refine ⟨?_, ?_, ?_⟩
  · intro t
    simp only [list_tasks, open_or_init]
    rw [List.mem_filter, List.mem_filter, priorityMatches_iff, tagMatches_iff]
    tauto
  · rintro rfl rfl
    simp only [list_tasks, open_or_init, List.map_nil]
    rw [List.filter_eq_self.mpr, List.filter_eq_self.mpr]
    · intro a _; rfl
    · intro a _; rfl
  · simp only [list_tasks, open_or_init]
    exact (List.filter_sublist _).trans (List.filter_sublist _)

/-- C6 witness: in `fMix`, filtering by priority 5 and tag "HOME" returns
`tOther` (priority 5, tag "home"). -/
theorem list_filter_semantics_witness :
    tOther ∈ (list_tasks 0 (some fMix) (some 5) ["HOME"]).1 :=
  ((list_filter_semantics 0 fMix (some 5) ["HOME"]).1 tOther).mpr
    ⟨by decide, by decide, by decide⟩

/-- One mutation step on a task: the three mutators of model.rs, each with
the wall-clock instant at which it runs (and its argument). -/
inductive Mut where
  | markDone (now : Nat)
  | setPrio (now : Nat) (p : Option Nat)
  | addTag (now : Nat) (tag : String)
deriving DecidableEq, Repr

/-- Run one mutation.  A `set_priority` whose range assertion fails aborts
the process, so the task value is left as it was. -/
def applyMut (t : Task) : Mut → Task
  | Mut.markDone now => Task.mark_done now t
  | Mut.setPrio now p =>
      match Task.set_priority now t p with
      | Except.ok t2 => t2
      | Except.error _ => t
  | Mut.addTag now tag => Task.add_tag now t tag

/-- Run a sequence of mutations left to right. -/
def applyMuts (t : Task) (ms : List Mut) : Task :=
  ms.foldl applyMut t

/-- Every single mutation preserves the invariant
`completed_at is Some ↔ status = Done`. -/
theorem applyMut_inv {t : Task} (m : Mut)
    (h : t.completed_at.isSome = true ↔ t.status = Status.Done) :
    (applyMut t m).completed_at.isSome = true ↔ (applyMut t m).status = Status.Done := by
  cases m with
  | markDone now =>
      by_cases hd : t.status = Status.Done
      · rw [applyMut, mark_done_of_done now hd]; exact h
      · simp [applyMut, Task.mark_done, hd]
  | setPrio now p =>
      by_cases hp : t.priority = p
      · simp only [applyMut, Task.set_priority, hp]
        simp [h]
      · cases p with
        | some val =>
            by_cases hv : val ≤ 5 <;>
              simp only [applyMut, Task.set_priority, if_pos, if_neg, hp, hv] <;>
              simp [hp, hv, h]
        | none =>
            simp only [applyMut, Task.set_priority]
            simp [hp, h]
  | addTag now tag =>
      by_cases ha : t.tags.any (fun s => eqIgnoreAsciiCase s tag) = true
      · simp [applyMut, Task.add_tag, ha, h]
      · simp [applyMut, Task.add_tag, ha, h]

/-- Once `completed_at` is set, no mutation changes it (given the
invariant). -/
theorem applyMut_keeps_completed {t : Task} (m : Mut)
    (hinv : t.completed_at.isSome = true ↔ t.status = Status.Done)
    (hs : t.completed_at.isSome = true) :
    (applyMut t m).completed_at = t.completed_at := by
  cases m with
  | markDone now => rw [applyMut, mark_done_of_done now (hinv.mp hs)]
  | setPrio now p =>
      by_cases hp : t.priority = p
      · simp [applyMut, Task.set_priority, hp]
      · cases p with
        | some val =>
            by_cases hv : val ≤ 5 <;> simp [applyMut, Task.set_priority, hp, hv]
        | none => simp [applyMut, Task.set_priority, hp]
  | addTag now tag =>
      by_cases ha : t.tags.any (fun s => eqIgnoreAsciiCase s tag) = true <;>
        simp [applyMut, Task.add_tag, ha]

/-- Done is absorbing: no mutation leaves the Done status. -/
theorem applyMut_done_absorbing {t : Task} (m : Mut) (h : t.status = Status.Done) :
    (applyMut t m).status = Status.Done := by
  cases m with
  | markDone now => exact mark_done_status now t
  | setPrio now p =>
      by_cases hp : t.priority = p
      · simp [applyMut, Task.set_priority, hp, h]
      · cases p with
        | some val =>
            by_cases hv : val ≤ 5 <;> simp [applyMut, Task.set_priority, hp, hv, h]
        | none => simp [applyMut, Task.set_priority, hp, h]
  | addTag now tag =>
      by_cases ha : t.tags.any (fun s => eqIgnoreAsciiCase s tag) = true <;>
        simp [applyMut, Task.add_tag, ha, h]

/-- The invariant carries over any mutation sequence. -/
theorem applyMuts_inv (t : Task) (ms : List Mut)
    (h : t.completed_at.isSome = true ↔ t.status = Status.Done) :
    (applyMuts t ms).completed_at.isSome = true ↔
      (applyMuts t ms).status = Status.Done := by
  induction ms generalizing t with
  | nil => exact h
  | cons m ms ih => exact ih (applyMut t m) (applyMut_inv m h)

/-- C9: for any task produced by the builder and then mutated only through
`mark_done`, `set_priority` and `add_tag`: creation yields
`completed_at = None` with status Pending; at every reachable state
`completed_at` is Some iff the status is Done (and since Done is absorbing —
last conjunct — "currently Done" is the same as "Done was reached at least
once"); and once set, `completed_at` is never cleared or changed by a
further mutation. -/
theorem completed_at_invariant (b : TaskBuilder) (id now : Nat) (t0 : Task)
    (h : b.build id now = some t0) (ms : List Mut) :
    t0.completed_at = none ∧ t0.status = Status.Pending ∧
    ((applyMuts t0 ms).completed_at.isSome = true ↔
       (applyMuts t0 ms).status = Status.Done) ∧
    (∀ m : Mut, (applyMuts t0 ms).completed_at.isSome = true →
       (applyMut (applyMuts t0 ms) m).completed_at = (applyMuts t0 ms).completed_at) ∧
    (∀ m : Mut, (applyMuts t0 ms).status = Status.Done →
       (applyMut (applyMuts t0 ms) m).status = Status.Done) := by
  have h0 : t0.completed_at = none ∧ t0.status = Status.Pending := by
    cases hb : b.title with
    | none => rw [TaskBuilder.build, hb] at h; cases h
    | some s =>
        rw [TaskBuilder.build, hb] at h
        cases h
        exact ⟨rfl, rfl⟩
  have hinv0 : t0.completed_at.isSome = true ↔ t0.status = Status.Done := by
    rw [h0.1, h0.2]; simp
  have hinv := applyMuts_inv t0 ms hinv0
  exact ⟨h0.1, h0.2, hinv,
    fun m hs => applyMut_keeps_completed m hinv hs,
    fun m hd => applyMut_done_absorbing m hd⟩

/-- Builder and mutation trace for the C9 witness. -/
def bW : TaskBuilder := Task.builderInit.setTitle "water plants"

/-- The task `bW` builds with id 1 at time 2. -/
def tW0 : Task :=
  { id := 1, title := "water plants", desc := none, status := Status.Pending
    priority := some 0, tags := [], created_at := 2
    updated_at := none, completed_at := none }

/-- A concrete mutation trace: tag, complete, retag, reprioritise. -/
def msW : List Mut :=
  [Mut.addTag 3 "garden", Mut.markDone 4, Mut.addTag 5 "GARDEN", Mut.setPrio 6 (some 3)]

/-- C9 witness: the invariant instantiated on the concrete trace `msW`. -/
theorem completed_at_invariant_witness :
    tW0.completed_at = none ∧ tW0.status = Status.Pending ∧
    ((applyMuts tW0 msW).completed_at.isSome = true ↔
       (applyMuts tW0 msW).status = Status.Done) ∧
    (applyMut (applyMuts tW0 msW) (Mut.addTag 7 "x")).completed_at =
      (applyMuts tW0 msW).completed_at :=
  let r := completed_at_invariant bW 1 2 tW0 (by decide) msW
  ⟨r.1, r.2.1, r.2.2.1, r.2.2.2.1 (Mut.addTag 7 "x") (by decide)⟩

end Todo
